import Mathlib

/-!
Shallow embedding of `scripts/check_drawdown.py`.

Python floats are modelled as rationals (ℚ), ISO date strings as `String`,
JSON dict fields that may be absent as `Option`, and raised exceptions as
`Except String`.  The per-symbol dict stored in `state["symbols"]` is the
record `SymRecord`; the fields written by `sym_state.update({...})` at the
end of every loop iteration are the "mirror" fields, and `notified_level`
is optional because the code only writes it when an alert fires.
-/

namespace Drawdown

/-- The `Snapshot` dataclass. -/
structure Snapshot where
  last_date : String
  last_close : ℚ
  peak_date : String
  peak_value : ℚ
  drawdown : ℚ
deriving DecidableEq

/-- One symbol's entry of `state["symbols"]`, as the code itself writes it:
`sym_state.update` always sets the six mirror fields, while
`sym_state["notified_level"]` is only assigned when an alert fires, hence
`Option Nat`. -/
structure SymRecord where
  updated_at : String
  last_date : String
  last_close : ℚ
  peak_date : String
  peak_value : ℚ
  drawdown : ℚ
  notified_level : Option Nat
deriving DecidableEq

/-- The data passed to `create_issue(symbol, level, snap, threshold)` that the
claims talk about: the level, the threshold `levels[hit_level - 1]`, and the
snapshot's peak date (which is embedded in the issue title). -/
structure Alert where
  level : Nat
  threshold : ℚ
  peak_date : String
deriving DecidableEq

/-- The loop of `decide_level`: `hit = None; for i, th in enumerate(levels, 1):
if drawdown <= th: hit = i`.  The accumulator `hit` and the running index `i`
are explicit arguments. -/
def decideLevelAux (drawdown : ℚ) : List ℚ → Nat → Option Nat → Option Nat
  | [], _, hit => hit
  | th :: rest, i, hit =>
      decideLevelAux drawdown rest (i + 1) (if drawdown ≤ th then some i else hit)

/-- `decide_level(drawdown, levels)` from the source. -/
def decide_level (drawdown : ℚ) (levels : List ℚ) : Option Nat :=
  decideLevelAux drawdown levels 1 none

/-- Structural-recursion reformulation of the loop, used to reason about
`decide_level`: the rightmost 1-indexed position whose threshold is met. -/
def decideLevelRec (drawdown : ℚ) : List ℚ → Option Nat
  | [] => none
  | th :: rest =>
      match decideLevelRec drawdown rest with
      | some k => some (k + 1)
      | none => if drawdown ≤ th then some 1 else none

theorem decideLevelRec_pos {d : ℚ} : ∀ {ls : List ℚ} {k : Nat},
    decideLevelRec d ls = some k → 1 ≤ k := by
  intro ls
  induction ls with
  | nil => intro k h; simp [decideLevelRec] at h
  | cons th rest ih =>
    intro k h
    simp only [decideLevelRec] at h
    cases hr : decideLevelRec d rest with
    | some m => rw [hr] at h; simp at h; omega
    | none =>
      rw [hr] at h
      by_cases hth : d ≤ th
      · simp [hth] at h; omega
      · simp [hth] at h

theorem decideLevelAux_eq (d : ℚ) : ∀ (ls : List ℚ) (i : Nat) (hit : Option Nat),
    decideLevelAux d ls i hit =
      match decideLevelRec d ls with
      | some k => some (i + k - 1)
      | none => hit := by
  intro ls
  induction ls with
  | nil => intro i hit; rfl
  | cons th rest ih =>
    intro i hit
    simp only [decideLevelAux, decideLevelRec]
    rw [ih]
    cases hr : decideLevelRec d rest with
    | some k =>
      have hk : 1 ≤ k := decideLevelRec_pos hr
      simp only []
      congr 1
      omega
    | none =>
      by_cases hth : d ≤ th <;> simp [hth]

theorem decide_level_eq_rec (d : ℚ) (ls : List ℚ) :
    decide_level d ls = decideLevelRec d ls := by
  rw [decide_level, decideLevelAux_eq]
  cases hr : decideLevelRec d ls with
  | some k =>
    have hk : 1 ≤ k := decideLevelRec_pos hr
    simp only []
    congr 1
    omega
  | none => rfl

theorem decideLevelRec_none_iff (d : ℚ) : ∀ (ls : List ℚ),
    decideLevelRec d ls = none ↔ ∀ th ∈ ls, ¬ d ≤ th := by
  intro ls
  induction ls with
  | nil => simp [decideLevelRec]
  | cons th rest ih =>
    simp only [decideLevelRec]
    cases hr : decideLevelRec d rest with
    | some k =>
      simp only []
      constructor
      · intro h; exact absurd h (by simp)
      · intro h
        have : decideLevelRec d rest = none := ih.mpr (fun x hx => h x (List.mem_cons_of_mem _ hx))
        rw [this] at hr; exact absurd hr (by simp)
    | none =>
      have hrest : ∀ x ∈ rest, ¬ d ≤ x := ih.mp hr
      by_cases hth : d ≤ th
      · simp [hth]
      · simp only [hth, if_false]
        constructor
        · intro _ x hx
          rcases List.mem_cons.mp hx with h1 | h2
          · exact h1 ▸ hth
          · exact hrest x h2
        · intro _; trivial

theorem decide_level_none_iff (d : ℚ) (ls : List ℚ) :
    decide_level d ls = none ↔ ∀ th ∈ ls, ¬ d ≤ th := by
  rw [decide_level_eq_rec]; exact decideLevelRec_none_iff d ls

theorem decide_level_pos {d : ℚ} {ls : List ℚ} {h : Nat}
    (hh : decide_level d ls = some h) : 1 ≤ h := by
  rw [decide_level_eq_rec] at hh
  exact decideLevelRec_pos hh

theorem getD_cons_of_two_le (th : ℚ) (rest : List ℚ) {j : Nat} (hj : 2 ≤ j) :
    (th :: rest).getD (j - 1) 0 = rest.getD (j - 2) 0 := by
  have h : j - 1 = (j - 2) + 1 := by omega
  rw [h, List.getD_cons_succ]

theorem getD_mem_of_lt {l : List ℚ} {n : Nat} (h : n < l.length) : l.getD n 0 ∈ l := by
  rw [List.getD_eq_getElem?_getD, List.getElem?_eq_getElem h]
  exact List.getElem_mem h

theorem decideLevelRec_some_iff (d : ℚ) : ∀ (ls : List ℚ) (h : Nat),
    decideLevelRec d ls = some h ↔
      (1 ≤ h ∧ h ≤ ls.length ∧ d ≤ ls.getD (h - 1) 0 ∧
       ∀ j, h < j → j ≤ ls.length → ¬ d ≤ ls.getD (j - 1) 0) := by
  intro ls
  induction ls with
  | nil =>
    intro h
    simp only [decideLevelRec, List.length_nil]
    constructor
    · intro hc; exact absurd hc (by simp)
    · rintro ⟨h1, h2, -, -⟩; exfalso; omega
  | cons th rest ih =>
    intro h
    simp only [decideLevelRec, List.length_cons]
    cases hr : decideLevelRec d rest with
    | some k =>
      obtain ⟨hk1, hk2, hk3, hk4⟩ := (ih k).mp hr
      constructor
      · intro he
        have hhe : h = k + 1 := by simp at he; omega
        subst hhe
        refine ⟨by omega, by omega, ?_, ?_⟩
        · rw [getD_cons_of_two_le th rest (by omega)]
          have : k + 1 - 2 = k - 1 := by omega
          rw [this]; exact hk3
        · intro j hj1 hj2
          rw [getD_cons_of_two_le th rest (by omega)]
          have hj4 := hk4 (j - 1) (by omega) (by omega)
          have : j - 1 - 1 = j - 2 := by omega
          rw [this] at hj4
          exact hj4
      · rintro ⟨h1, h2, h3, h4⟩
        by_cases hlt : h < k + 1
        · exfalso
          have h4' := h4 (k + 1) (by omega) (by omega)
          rw [getD_cons_of_two_le th rest (by omega)] at h4'
          have : k + 1 - 2 = k - 1 := by omega
          rw [this] at h4'
          exact h4' hk3
        · by_cases hgt : k + 1 < h
          · exfalso
            have hk4' := hk4 (h - 1) (by omega) (by omega)
            rw [getD_cons_of_two_le th rest (by omega)] at h3
            have : h - 1 - 1 = h - 2 := by omega
            rw [this] at hk4'
            exact hk4' h3
          · have : h = k + 1 := by omega
            subst this; rfl
    | none =>
      have hrest : ∀ x ∈ rest, ¬ d ≤ x := (decideLevelRec_none_iff d rest).mp hr
      by_cases hth : d ≤ th
      · simp only [hth, if_true]
        constructor
        · intro he
          have hhe : h = 1 := by simp at he; omega
          subst hhe
          refine ⟨le_refl 1, by omega, by simpa [List.getD_cons_zero] using hth, ?_⟩
          intro j hj1 hj2
          rw [getD_cons_of_two_le th rest (by omega)]
          have hjlen : j - 2 < rest.length := by omega
          exact hrest _ (getD_mem_of_lt hjlen)
        · rintro ⟨h1, h2, h3, h4⟩
          by_cases h1' : h = 1
          · subst h1'; rfl
          · exfalso
            rw [getD_cons_of_two_le th rest (by omega)] at h3
            have hjlen : h - 2 < rest.length := by omega
            exact hrest _ (getD_mem_of_lt hjlen) h3
      · simp only [hth, if_false]
        constructor
        · intro he; exact absurd he (by simp)
        · rintro ⟨h1, h2, h3, h4⟩
          exfalso
          by_cases h1' : h = 1
          · subst h1'
            rw [show (1:Nat) - 1 = 0 from rfl, List.getD_cons_zero] at h3
            exact hth h3
          · rw [getD_cons_of_two_le th rest (by omega)] at h3
            have hjlen : h - 2 < rest.length := by omega
            exact hrest _ (getD_mem_of_lt hjlen) h3

theorem decide_level_some_iff (d : ℚ) (ls : List ℚ) (h : Nat) :
    decide_level d ls = some h ↔
      (1 ≤ h ∧ h ≤ ls.length ∧ d ≤ ls.getD (h - 1) 0 ∧
       ∀ j, h < j → j ≤ ls.length → ¬ d ≤ ls.getD (j - 1) 0) := by
  rw [decide_level_eq_rec]; exact decideLevelRec_some_iff d ls h

theorem decide_level_le_length {d : ℚ} {ls : List ℚ} {h : Nat}
    (hh : decide_level d ls = some h) : h ≤ ls.length :=
  ((decide_level_some_iff d ls h).mp hh).2.1

/-- The effective "last notified level" of the loop body:
`last_notified_level = int(sym_state.get("notified_level", 0) or 0)` followed by
`if last_peak_date != snap.peak_date: last_notified_level = 0`.  For an absent
symbol entry `sym_state.get("peak_date")` is `None`, which differs from every
snapshot peak date. -/
def effectiveNotified (stored : Option SymRecord) (snapPeak : String) : Nat :=
  match stored with
  | none => 0
  | some r => if r.peak_date = snapPeak then r.notified_level.getD 0 else 0

/-- The `sym_state.update({...})` call: every mirror field is overwritten from
the snapshot and `updated_at` from `now`; `notified_level` keeps whatever value
the alert branch left in the dict. -/
def mirrorRecord (now : String) (snap : Snapshot) (notified : Option Nat) : SymRecord :=
  { updated_at := now, last_date := snap.last_date, last_close := snap.last_close,
    peak_date := snap.peak_date, peak_value := snap.peak_value,
    drawdown := snap.drawdown, notified_level := notified }

/-- One iteration of the `for symbol, levels in RULES.items()` loop of `main`,
for one symbol: compute `hit_level`, compare with the effective notified level,
optionally emit the alert (the `create_issue` call), and build the updated
symbol entry.  Returns the updated entry and the emitted alert, if any. -/
def processSymbol (levels : List ℚ) (now : String) (snap : Snapshot)
    (stored : Option SymRecord) : SymRecord × Option Alert :=
  match decide_level snap.drawdown levels with
  | some h =>
      if effectiveNotified stored snap.peak_date < h then
        (mirrorRecord now snap (some h),
         some { level := h, threshold := levels.getD (h - 1) 0,
                peak_date := snap.peak_date })
      else
        (mirrorRecord now snap (stored.bind (·.notified_level)), none)
  | none => (mirrorRecord now snap (stored.bind (·.notified_level)), none)

/-- Repeated runs of the engine for one fixed symbol: fold `processSymbol` over
a list of snapshots (one per run), collecting the alerts in order. -/
def runSeq (levels : List ℚ) (now : String) :
    List Snapshot → Option SymRecord → Option SymRecord × List Alert
  | [], st => (st, [])
  | snap :: rest, st =>
      let pr := processSymbol levels now snap st
      let res := runSeq levels now rest (some pr.1)
      (res.1, pr.2.toList ++ res.2)

/-- The `state` dict: `{"version": 1, "symbols": {...}}`. -/
structure AppState where
  version : Nat
  symbols : String → Option SymRecord

/-- `state["symbols"][symbol] = sym_state`. -/
def updateSym (syms : String → Option SymRecord) (sym : String) (r : SymRecord) :
    String → Option SymRecord :=
  fun s => if s = sym then some r else syms s

/-- One loop iteration of `main` at the application level, with the two
side-effecting collaborators passed in: `fetch` models `fetch_snapshot`
(which may raise) and `notify` models `create_issue` / the `gh` subprocess
(which may raise, before `notified_level` is assigned). -/
def stepSymbol (fetch : String → Except String Snapshot)
    (notify : String → Nat → Snapshot → ℚ → Except String Unit)
    (now : String) (sym : String) (levels : List ℚ) (app : AppState) :
    Except String AppState :=
  match fetch sym with
  | .error e => .error e
  | .ok snap =>
      let pr := processSymbol levels now snap (app.symbols sym)
      match pr.2 with
      | some a =>
          match notify sym a.level snap a.threshold with
          | .error e => .error e
          | .ok _ => .ok { app with symbols := updateSym app.symbols sym pr.1 }
      | none => .ok { app with symbols := updateSym app.symbols sym pr.1 }

/-- The whole `for symbol, levels in RULES.items()` loop: an exception raised
for one symbol propagates, so later symbols are not processed. -/
def runSymbols (fetch : String → Except String Snapshot)
    (notify : String → Nat → Snapshot → ℚ → Except String Unit) (now : String) :
    List (String × List ℚ) → AppState → Except String AppState
  | [], app => .ok app
  | (sym, levels) :: rest, app =>
      match stepSymbol fetch notify now sym levels app with
      | .error e => .error e
      | .ok app' => runSymbols fetch notify now rest app'

/-- Contents of the persisted state file after one invocation of `main`:
`save_state(state)` runs only after the loop finishes, so on an exception the
previously persisted state stands untouched. -/
def mainPersisted (fetch : String → Except String Snapshot)
    (notify : String → Nat → Snapshot → ℚ → Except String Unit) (now : String)
    (rules : List (String × List ℚ)) (persisted : AppState) : AppState :=
  match runSymbols fetch notify now rules persisted with
  | .error _ => persisted
  | .ok app' => app'

/-- The response of `yf.download`, reduced to what `fetch_snapshot` inspects:
`df is None` is `Option.none` outside; `df.empty`, the presence of the
`"Close"` column, and the date-indexed close column itself (rows in date
order, `none` for missing values that `dropna()` removes). -/
structure DF where
  empty : Bool
  hasClose : Bool
  close : List (String × Option ℚ)
deriving DecidableEq

/-- `close = df["Close"].dropna()`. -/
def dropna (rows : List (String × Option ℚ)) : List (String × ℚ) :=
  rows.filterMap fun p => p.2.map fun v => (p.1, v)

def LOOKBACK_TRADING_DAYS : Nat := 252

/-- `tail = close.iloc[-LOOKBACK_TRADING_DAYS:]`: the last 252 rows (all rows
when there are fewer, as with Python negative slicing). -/
def tailWindow (close : List (String × ℚ)) : List (String × ℚ) :=
  close.drop (close.length - LOOKBACK_TRADING_DAYS)

/-- `tail.max()` together with `tail.idxmax()`: the maximum close in the
window and its date.  `idxmax` returns the first index attaining the maximum,
which the recursion mirrors by keeping the earlier row on ties. -/
def peakOf : List (String × ℚ) → Option (String × ℚ)
  | [] => none
  | (dt, v) :: rest =>
      match peakOf rest with
      | none => some (dt, v)
      | some (dt', v') => if v < v' then some (dt', v') else some (dt, v)

/-- `fetch_snapshot`, with the provider response passed in. -/
def fetch_snapshot (df : Option DF) : Except String Snapshot :=
  match df with
  | none => .error "Failed to fetch data"
  | some d =>
      if d.empty then .error "Failed to fetch data"
      else if d.hasClose = false then .error "Close column not found"
      else
        let close := dropna d.close
        if close.length < 60 then .error "Not enough data"
        else
          let tl := tailWindow close
          match peakOf tl, tl.getLast? with
          | some (pd, pv), some (ld, lv) =>
              .ok { last_date := ld, last_close := lv, peak_date := pd,
                    peak_value := pv, drawdown := lv / pv - 1 }
          | _, _ => .error "empty window"

theorem processSymbol_spec (levels : List ℚ) (now : String) (snap : Snapshot)
    (stored : Option SymRecord) :
    (processSymbol levels now snap stored =
        (mirrorRecord now snap (stored.bind (·.notified_level)), none) ∧
      ∀ h, decide_level snap.drawdown levels = some h →
        h ≤ effectiveNotified stored snap.peak_date) ∨
    (∃ h, decide_level snap.drawdown levels = some h ∧
      effectiveNotified stored snap.peak_date < h ∧
      processSymbol levels now snap stored =
        (mirrorRecord now snap (some h),
         some { level := h, threshold := levels.getD (h - 1) 0,
                peak_date := snap.peak_date })) := by
  unfold processSymbol
  cases hd : decide_level snap.drawdown levels with
  | none =>
    left
    exact ⟨rfl, fun h hh => absurd hh (by simp)⟩
  | some h =>
    by_cases hc : effectiveNotified stored snap.peak_date < h
    · right
      exact ⟨h, rfl, hc, by simp [hc]⟩
    · left
      refine ⟨by simp [hc], ?_⟩
      intro h' hh'
      have : h' = h := by injection hh' with he; omega
      omega

theorem mirrorRecord_peak (now : String) (snap : Snapshot) (n : Option Nat) :
    (mirrorRecord now snap n).peak_date = snap.peak_date := rfl

theorem mirrorRecord_notified (now : String) (snap : Snapshot) (n : Option Nat) :
    (mirrorRecord now snap n).notified_level = n := rfl

theorem runSeq_cons (levels : List ℚ) (now : String) (snap : Snapshot)
    (rest : List Snapshot) (st : Option SymRecord) :
    runSeq levels now (snap :: rest) st =
      ((runSeq levels now rest (some (processSymbol levels now snap st).1)).1,
       (processSymbol levels now snap st).2.toList ++
         (runSeq levels now rest (some (processSymbol levels now snap st).1)).2) := rfl

/-- Within one alerting epoch (all snapshots carry the same peak date), the
emitted alert levels are strictly increasing, and every one of them exceeds
the starting record's notified level when that record belongs to the epoch. -/
theorem runSeq_pairwise_aux (levels : List ℚ) (now : String) (p : String) :
    ∀ (snaps : List Snapshot) (st : Option SymRecord),
    (∀ s ∈ snaps, s.peak_date = p) →
    (runSeq levels now snaps st).2.Pairwise (fun a b => a.level < b.level) ∧
    (∀ r0, st = some r0 → r0.peak_date = p →
       ∀ a ∈ (runSeq levels now snaps st).2, r0.notified_level.getD 0 < a.level) := by
  intro snaps
  induction snaps with
  | nil =>
    intro st _
    simp [runSeq]
  | cons snap rest ih =>
    intro st hp
    have hsp : snap.peak_date = p := hp snap (List.mem_cons_self _ _)
    have hrest : ∀ s ∈ rest, s.peak_date = p := fun s hs => hp s (List.mem_cons_of_mem _ hs)
    rcases processSymbol_spec levels now snap st with ⟨heq, -⟩ | ⟨h, -, hlt, heq⟩
    · obtain ⟨ihPw, ihInv⟩ :=
        ih (some (mirrorRecord now snap (st.bind (·.notified_level)))) hrest
      rw [runSeq_cons, heq]
      simp only [Option.toList_none, List.nil_append]
      constructor
      · exact ihPw
      · intro r0 hst hr0p a ha
        have hinv := ihInv (mirrorRecord now snap (st.bind (·.notified_level))) rfl
          (by rw [mirrorRecord_peak]; exact hsp) a ha
        rw [mirrorRecord_notified] at hinv
        rw [hst] at hinv
        simpa using hinv
    · obtain ⟨ihPw, ihInv⟩ := ih (some (mirrorRecord now snap (some h))) hrest
      have hall : ∀ a ∈ (runSeq levels now rest (some (mirrorRecord now snap (some h)))).2,
          h < a.level := by
        intro a ha
        have hinv := ihInv (mirrorRecord now snap (some h)) rfl
          (by rw [mirrorRecord_peak]; exact hsp) a ha
        rw [mirrorRecord_notified] at hinv
        simpa using hinv
      rw [runSeq_cons, heq]
      simp only [Option.toList_some, List.cons_append, List.nil_append]
      constructor
      · exact List.pairwise_cons.mpr ⟨fun b hb => hall b hb, ihPw⟩
      · intro r0 hst hr0p a ha
        have heff : effectiveNotified st snap.peak_date = r0.notified_level.getD 0 := by
          rw [hst]
          simp [effectiveNotified, hr0p, hsp]
        rcases List.mem_cons.mp ha with hhead | htail
        · rw [hhead]
          rw [heff] at hlt
          exact hlt
        · rw [heff] at hlt
          exact lt_trans hlt (hall a htail)

theorem peakOf_cons_isSome (x : String × ℚ) (rest : List (String × ℚ)) :
    (peakOf (x :: rest)).isSome := by
  obtain ⟨d0, v0⟩ := x
  simp only [peakOf]
  cases peakOf rest with
  | none => rfl
  | some q =>
    obtain ⟨d', v'⟩ := q
    by_cases hv : v0 < v' <;> simp [hv]

/-- `idxmax` semantics of `peakOf`: it returns an entry of the list whose
value bounds every entry, and every strictly earlier entry is strictly
below it (first occurrence of the maximum). -/
theorem peakOf_spec : ∀ (l : List (String × ℚ)) (dt : String) (v : ℚ),
    peakOf l = some (dt, v) →
    ∃ i, ∃ hi : i < l.length, l[i] = (dt, v) ∧
      (∀ j, ∀ hj : j < l.length, (l[j]).2 ≤ v) ∧
      (∀ j, ∀ hj : j < l.length, j < i → (l[j]).2 < v) := by
  intro l
  induction l with
  | nil => intro dt v h; simp [peakOf] at h
  | cons x rest ih =>
    obtain ⟨d0, v0⟩ := x
    intro dt v h
    simp only [peakOf] at h
    cases hr : peakOf rest with
    | none =>
      rw [hr] at h
      have hrest : rest = [] := by
        cases rest with
        | nil => rfl
        | cons y ys =>
          have := peakOf_cons_isSome y ys
          rw [hr] at this
          simp at this
      subst hrest
      simp only [Option.some.injEq, Prod.mk.injEq] at h
      obtain ⟨rfl, rfl⟩ := h
      refine ⟨0, by simp, by simp, ?_, ?_⟩
      · intro j hj
        have hj' : j = 0 := by simpa using hj
        subst hj'
        simp
      · intro j hj hj0
        omega
    | some q =>
      obtain ⟨d', v'⟩ := q
      rw [hr] at h
      have h' : (if v0 < v' then some (d', v') else some (d0, v0)) = some (dt, v) := h
      obtain ⟨i', hi', hget, hbound, hstrict⟩ := ih d' v' hr
      by_cases hv : v0 < v'
      · rw [if_pos hv] at h'
        simp only [Option.some.injEq, Prod.mk.injEq] at h'
        obtain ⟨rfl, rfl⟩ := h'
        refine ⟨i' + 1, by simpa using hi', by simpa using hget, ?_, ?_⟩
        · intro j hj
          cases j with
          | zero => simpa using le_of_lt hv
          | succ jj => simpa using hbound jj (by simpa using hj)
        · intro j hj hji
          cases j with
          | zero => simpa using hv
          | succ jj => simpa using hstrict jj (by simpa using hj) (by omega)
      · rw [if_neg hv] at h'
        simp only [Option.some.injEq, Prod.mk.injEq] at h'
        obtain ⟨rfl, rfl⟩ := h'
        refine ⟨0, by simp, by simp, ?_, ?_⟩
        · intro j hj
          cases j with
          | zero => simp
          | succ jj =>
            have := hbound jj (by simpa using hj)
            simpa using le_trans this (le_of_not_lt hv)
        · intro j hj hj0
          omega

set_option maxRecDepth 4000 in
theorem fetch_snapshot_some (d : DF) :
    fetch_snapshot (some d) =
      (if d.empty then Except.error "Failed to fetch data"
       else if d.hasClose = false then Except.error "Close column not found"
       else if (dropna d.close).length < 60 then Except.error "Not enough data"
       else
         match peakOf (tailWindow (dropna d.close)),
             (tailWindow (dropna d.close)).getLast? with
         | some (pd, pv), some (ld, lv) =>
             Except.ok { last_date := ld, last_close := lv, peak_date := pd,
                         peak_value := pv, drawdown := lv / pv - 1 }
         | _, _ => Except.error "empty window") := rfl

set_option maxRecDepth 4000 in
theorem fetch_snapshot_ok_inv {d : DF} {s : Snapshot}
    (h : fetch_snapshot (some d) = .ok s) :
    d.empty = false ∧ d.hasClose = true ∧ ¬ (dropna d.close).length < 60 ∧
    peakOf (tailWindow (dropna d.close)) = some (s.peak_date, s.peak_value) ∧
    (tailWindow (dropna d.close)).getLast? = some (s.last_date, s.last_close) := by
  rw [fetch_snapshot_some] at h
  by_cases h1 : d.empty = true
  · rw [if_pos h1] at h; exact absurd h (by simp)
  · rw [if_neg h1] at h
    by_cases h2 : d.hasClose = false
    · rw [if_pos h2] at h; exact absurd h (by simp)
    · rw [if_neg h2] at h
      by_cases h3 : (dropna d.close).length < 60
      · rw [if_pos h3] at h; exact absurd h (by simp)
      · rw [if_neg h3] at h
        refine ⟨by simpa using h1, by simpa using h2, h3, ?_⟩
        cases hp : peakOf (tailWindow (dropna d.close)) with
        | none => rw [hp] at h; exact absurd h (by simp)
        | some pk =>
          obtain ⟨pd, pv⟩ := pk
          rw [hp] at h
          cases hl : (tailWindow (dropna d.close)).getLast? with
          | none => rw [hl] at h; exact absurd h (by simp)
          | some lt =>
            obtain ⟨ld, lv⟩ := lt
            rw [hl] at h
            simp only [Except.ok.injEq] at h
            subst h
            exact ⟨rfl, rfl⟩

theorem runSymbols_append (fetch : String → Except String Snapshot)
    (notify : String → Nat → Snapshot → ℚ → Except String Unit) (now : String) :
    ∀ (l1 l2 : List (String × List ℚ)) (app : AppState),
    runSymbols fetch notify now (l1 ++ l2) app =
      match runSymbols fetch notify now l1 app with
      | .error e => .error e
      | .ok app' => runSymbols fetch notify now l2 app' := by
  intro l1
  induction l1 with
  | nil => intro l2 app; rfl
  | cons x rest ih =>
    intro l2 app
    obtain ⟨sym, levels⟩ := x
    simp only [List.cons_append, runSymbols]
    cases stepSymbol fetch notify now sym levels app with
    | error e => rfl
    | ok app' => exact ih l2 app'

theorem getD_eq_get {l : List ℚ} {n : Nat} (h : n < l.length) :
    l.getD n 0 = l.get ⟨n, h⟩ := by
  rw [List.getD_eq_getElem?_getD, List.getElem?_eq_getElem h]
  simp [List.get_eq_getElem]

theorem getD_eq_getElem' {l : List ℚ} {n : Nat} (h : n < l.length) :
    l.getD n 0 = l[n] := by
  rw [List.getD_eq_getElem?_getD, List.getElem?_eq_getElem h]; rfl

theorem effectiveNotified_le (st : Option SymRecord) (pd : String) :
    effectiveNotified st pd ≤ (st.bind (·.notified_level)).getD 0 := by
  cases st with
  | none => simp [effectiveNotified]
  | some r =>
    simp only [effectiveNotified, Option.bind_some]
    split
    · exact le_refl _
    · exact Nat.zero_le _

theorem processSymbol_alert_of (levels : List ℚ) (now : String) (snap : Snapshot)
    (stored : Option SymRecord) (h : Nat)
    (hhit : decide_level snap.drawdown levels = some h)
    (hlt : effectiveNotified stored snap.peak_date < h) :
    processSymbol levels now snap stored =
      (mirrorRecord now snap (some h),
       some { level := h, threshold := levels.getD (h - 1) 0,
              peak_date := snap.peak_date }) := by
  unfold processSymbol
  rw [hhit]
  simp [hlt]

theorem processSymbol_noalert_of (levels : List ℚ) (now : String) (snap : Snapshot)
    (stored : Option SymRecord)
    (hcond : ∀ h, decide_level snap.drawdown levels = some h →
       h ≤ effectiveNotified stored snap.peak_date) :
    processSymbol levels now snap stored =
      (mirrorRecord now snap (stored.bind (·.notified_level)), none) := by
  unfold processSymbol
  cases hd : decide_level snap.drawdown levels with
  | none => rfl
  | some h =>
    have := hcond h hd
    simp [Nat.not_lt.mpr this]

/-- C1: across any sequence of runs for one symbol whose snapshots all carry
the same peak date (one alerting epoch), the emitted alert levels are strictly
increasing — hence at most one alert per (symbol, epoch, level) — and in the
evaluation where the stored peak date differs from the snapshot's, the
effective notified level is 0, so any reached level is alerted again even if
the stored notified level is at or above it. -/
theorem C1_epoch_alert_uniqueness (levels : List ℚ) (now p : String)
    (snaps : List Snapshot) (st : Option SymRecord)
    (hp : ∀ s ∈ snaps, s.peak_date = p) :
    (runSeq levels now snaps st).2.Pairwise (fun a b => a.level < b.level) ∧
    (∀ (r0 : SymRecord) (snap : Snapshot), r0.peak_date ≠ snap.peak_date →
       ∀ h, decide_level snap.drawdown levels = some h →
         (processSymbol levels now snap (some r0)).2 =
           some { level := h, threshold := levels.getD (h - 1) 0,
                  peak_date := snap.peak_date }) := by
  constructor
  · exact (runSeq_pairwise_aux levels now p snaps st hp).1
  · intro r0 snap hne h hh
    have h1 : 1 ≤ h := decide_level_pos hh
    have heff : effectiveNotified (some r0) snap.peak_date = 0 := by
      simp [effectiveNotified, hne]
    have heq := processSymbol_alert_of levels now snap (some r0) h hh (by omega)
    rw [heq]

/-- C1 witness: two runs under the same peak date, starting from no stored
state, emit alerts with strictly increasing levels. -/
theorem C1_epoch_alert_uniqueness_witness :
    ((runSeq [-30, -55, -75] "t"
        [{ last_date := "d1", last_close := 60, peak_date := "p", peak_value := 100,
           drawdown := -40 },
         { last_date := "d2", last_close := 40, peak_date := "p", peak_value := 100,
           drawdown := -60 }] none).2).Pairwise
      (fun a b => a.level < b.level) :=
  (C1_epoch_alert_uniqueness [-30, -55, -75] "t" "p" _ none (by decide)).1

/-- C2: decide_level returns the largest 1-indexed level whose threshold the
drawdown meets, none when no threshold is met; for a monotonically
non-increasing ladder this picks exactly the level between two successive
thresholds, and a drawdown above the first threshold yields none. -/
theorem C2_decide_level_correct (d : ℚ) (ls : List ℚ) :
    (∀ h : Nat, decide_level d ls = some h ↔
       (1 ≤ h ∧ h ≤ ls.length ∧ d ≤ ls.getD (h - 1) 0 ∧
        ∀ j, h < j → j ≤ ls.length → ¬ d ≤ ls.getD (j - 1) 0)) ∧
    (decide_level d ls = none ↔ ∀ th ∈ ls, ¬ d ≤ th) ∧
    (ls.Pairwise (· ≥ ·) →
       (∀ k, 1 ≤ k → k < ls.length → d ≤ ls.getD (k - 1) 0 → ls.getD k 0 < d →
          decide_level d ls = some k) ∧
       (ls ≠ [] → ls.getD 0 0 < d → decide_level d ls = none)) := by
  refine ⟨fun h => decide_level_some_iff d ls h, decide_level_none_iff d ls, ?_⟩
  intro hmono
  have hpw : ∀ i j, ∀ hi : i < ls.length, ∀ hj : j < ls.length, i < j →
      ls[j] ≤ ls[i] := by
    intro i j hi hj hij
    exact List.pairwise_iff_getElem.mp hmono i j hi hj hij
  constructor
  · intro k hk1 hk2 hle hgt
    rw [decide_level_some_iff]
    refine ⟨hk1, by omega, hle, ?_⟩
    intro j hj1 hj2
    have hjl : j - 1 < ls.length := by omega
    rw [getD_eq_getElem' hjl]
    rw [getD_eq_getElem' hk2] at hgt
    have hjle : ls[j - 1] ≤ ls[k] := by
      rcases eq_or_lt_of_le (show k ≤ j - 1 by omega) with heq | hlt
      · exact le_of_eq (by simp [← heq])
      · exact hpw k (j - 1) hk2 hjl hlt
    intro hc
    exact absurd (le_trans hc hjle) (not_le.mpr hgt)
  · intro hne h0
    rw [decide_level_none_iff]
    intro th hth
    obtain ⟨j, hj, hget⟩ := List.mem_iff_getElem.mp hth
    have h0l : 0 < ls.length := List.length_pos.mpr hne
    rw [getD_eq_getElem' h0l] at h0
    by_cases hj0 : j = 0
    · subst hj0
      rw [← hget]
      exact not_le.mpr h0
    · have hle0 : ls[j] ≤ ls[0] := hpw 0 j h0l hj (by omega)
      rw [hget] at hle0
      exact not_le.mpr (lt_of_le_of_lt hle0 h0)

/-- C2 witness: ladder [-0.30, -0.55, -0.75] and drawdown -0.60 give level 2
via the monotone-ladder clause. -/
theorem C2_decide_level_correct_witness :
    decide_level (-60) [-30, -55, -75] = some 2 :=
  ((C2_decide_level_correct (-60) [-30, -55, -75]).2.2
    (by decide)).1 2 (by decide) (by decide) (by decide) (by decide)

/-- C3: a stored record with a positive notified level whose peak date differs
from the snapshot's starts a new epoch: any hit level (even one at or below
the stored notified level) fires an alert and becomes the persisted
notified level. -/
theorem C3_peak_reset_fires (levels : List ℚ) (now : String) (snap : Snapshot)
    (r0 : SymRecord) (n h : Nat)
    (_hn : r0.notified_level = some n) (_hpos : 0 < n)
    (hpeak : r0.peak_date ≠ snap.peak_date)
    (hhit : decide_level snap.drawdown levels = some h) :
    (processSymbol levels now snap (some r0)).2 =
      some { level := h, threshold := levels.getD (h - 1) 0,
             peak_date := snap.peak_date } ∧
    (processSymbol levels now snap (some r0)).1.notified_level = some h := by
  have h1 : 1 ≤ h := decide_level_pos hhit
  have heff : effectiveNotified (some r0) snap.peak_date = 0 := by
    simp [effectiveNotified, hpeak]
  have heq := processSymbol_alert_of levels now snap (some r0) h hhit (by omega)
  rw [heq]
  exact ⟨rfl, rfl⟩

/-- C3 witness: stored peak_date "2024-01-10" with notified_level 2, new
snapshot peak_date "2024-03-01" with hit level 1 — the alert fires at level 1
and notified_level becomes 1. -/
theorem C3_peak_reset_fires_witness :
    (processSymbol [-25, -50, -75] "t"
        { last_date := "d", last_close := 70, peak_date := "2024-03-01",
          peak_value := 100, drawdown := -30 }
        (some { updated_at := "t0", last_date := "d0", last_close := 50,
                peak_date := "2024-01-10", peak_value := 110, drawdown := -55,
                notified_level := some 2 })).2 =
      some { level := 1, threshold := -25, peak_date := "2024-03-01" } ∧
    (processSymbol [-25, -50, -75] "t"
        { last_date := "d", last_close := 70, peak_date := "2024-03-01",
          peak_value := 100, drawdown := -30 }
        (some { updated_at := "t0", last_date := "d0", last_close := 50,
                peak_date := "2024-01-10", peak_value := 110, drawdown := -55,
                notified_level := some 2 })).1.notified_level = some 1 :=
  C3_peak_reset_fires [-25, -50, -75] "t" _ _ 2 1 rfl (by decide)
    (by decide) (by decide)

/-- C4: the engine is idempotent per snapshot — evaluating the same snapshot a
second time, from the state the first evaluation produced, emits no alert and
leaves notified_level unchanged. -/
theorem C4_idempotent (levels : List ℚ) (now now' : String) (snap snap' : Snapshot)
    (st : Option SymRecord)
    (hpeak : snap'.peak_date = snap.peak_date)
    (hdd : snap'.drawdown = snap.drawdown) :
    (processSymbol levels now' snap' (some (processSymbol levels now snap st).1)).2 = none ∧
    (processSymbol levels now' snap'
        (some (processSymbol levels now snap st).1)).1.notified_level =
      (processSymbol levels now snap st).1.notified_level := by
  rcases processSymbol_spec levels now snap st with ⟨heq, hle⟩ | ⟨h, hd, hlt, heq⟩
  · rw [heq]
    have heff2 : effectiveNotified
        (some (mirrorRecord now snap (st.bind (·.notified_level)))) snap'.peak_date =
        (st.bind (·.notified_level)).getD 0 := by
      simp [effectiveNotified, mirrorRecord, hpeak]
    have hno := processSymbol_noalert_of levels now' snap'
      (some (mirrorRecord now snap (st.bind (·.notified_level))))
      (by
        intro h hh
        rw [hdd] at hh
        rw [heff2]
        exact le_trans (hle h hh) (effectiveNotified_le st snap.peak_date))
    rw [hno]
    simp [mirrorRecord]
  · rw [heq]
    have heff2 : effectiveNotified (some (mirrorRecord now snap (some h)))
        snap'.peak_date = h := by
      simp [effectiveNotified, mirrorRecord, hpeak]
    have hno := processSymbol_noalert_of levels now' snap'
      (some (mirrorRecord now snap (some h)))
      (by
        intro h' hh'
        rw [hdd, hd] at hh'
        have : h' = h := by injection hh' with he; omega
        rw [heff2]
        omega)
    rw [hno]
    simp [mirrorRecord]

/-- C4 witness: a second evaluation of the same snapshot (after a first that
alerted at level 2) emits nothing and keeps notified_level 2. -/
theorem C4_idempotent_witness :
    (processSymbol [-30, -55, -75] "t2"
        { last_date := "d2", last_close := 40, peak_date := "p",
          peak_value := 100, drawdown := -60 }
        (some (processSymbol [-30, -55, -75] "t1"
            { last_date := "d1", last_close := 40, peak_date := "p",
              peak_value := 100, drawdown := -60 } none).1)).2 = none ∧
    (processSymbol [-30, -55, -75] "t2"
        { last_date := "d2", last_close := 40, peak_date := "p",
          peak_value := 100, drawdown := -60 }
        (some (processSymbol [-30, -55, -75] "t1"
            { last_date := "d1", last_close := 40, peak_date := "p",
              peak_value := 100, drawdown := -60 } none).1)).1.notified_level =
      (processSymbol [-30, -55, -75] "t1"
        { last_date := "d1", last_close := 40, peak_date := "p",
          peak_value := 100, drawdown := -60 } none).1.notified_level :=
  C4_idempotent [-30, -55, -75] "t1" "t2"
    { last_date := "d1", last_close := 40, peak_date := "p",
      peak_value := 100, drawdown := -60 }
    { last_date := "d2", last_close := 40, peak_date := "p",
      peak_value := 100, drawdown := -60 } none rfl rfl

/-- C5: when the hit level exceeds the stored notified level, exactly one
alert fires in that run — the single emitted alert is at the hit level, with
the ladder's threshold at that (in-range) position — and notified_level is
persisted as the hit level; no alerts exist for intermediate levels. -/
theorem C5_single_escalation (levels : List ℚ) (now : String) (snap : Snapshot)
    (st : Option SymRecord) (h : Nat)
    (hhit : decide_level snap.drawdown levels = some h)
    (hgt : (st.bind (·.notified_level)).getD 0 < h) :
    (∃ hlen : h - 1 < levels.length,
       (processSymbol levels now snap st).2 =
         some { level := h, threshold := levels.get ⟨h - 1, hlen⟩,
                peak_date := snap.peak_date }) ∧
    (processSymbol levels now snap st).1.notified_level = some h := by
  have h1 := decide_level_pos hhit
  have h2 := decide_level_le_length hhit
  have hlen : h - 1 < levels.length := by omega
  have heff : effectiveNotified st snap.peak_date < h :=
    lt_of_le_of_lt (effectiveNotified_le st snap.peak_date) hgt
  have heq := processSymbol_alert_of levels now snap st h hhit heff
  rw [heq]
  refine ⟨⟨hlen, ?_⟩, rfl⟩
  rw [getD_eq_get hlen]

/-- C5 witness: stored notified_level 1 and a snapshot hitting level 3 fire a
single alert at level 3 with the deepest threshold. -/
theorem C5_single_escalation_witness :
    (∃ hlen : (3:Nat) - 1 < ([-30, -55, -75] : List ℚ).length,
       (processSymbol [-30, -55, -75] "t"
           { last_date := "d", last_close := 20, peak_date := "p",
             peak_value := 100, drawdown := -80 }
           (some { updated_at := "t0", last_date := "d0", last_close := 60,
                   peak_date := "p", peak_value := 100, drawdown := -40,
                   notified_level := some 1 })).2 =
         some { level := 3,
                threshold := ([-30, -55, -75] : List ℚ).get ⟨(3:Nat) - 1, hlen⟩,
                peak_date := "p" }) ∧
    (processSymbol [-30, -55, -75] "t"
        { last_date := "d", last_close := 20, peak_date := "p",
          peak_value := 100, drawdown := -80 }
        (some { updated_at := "t0", last_date := "d0", last_close := 60,
                peak_date := "p", peak_value := 100, drawdown := -40,
                notified_level := some 1 })).1.notified_level = some 3 :=
  C5_single_escalation [-30, -55, -75] "t" _ _ 3 (by decide) (by decide)

/-- C6: the persisted notified_level changes only when an alert is emitted (in
which case it becomes the alerted level); in particular a run whose snapshot
peak date differs from the stored one but fires no alert writes the new peak
date while keeping the previous epoch's notified_level. -/
theorem C6_notified_changes_only_on_alert (levels : List ℚ) (now : String)
    (snap : Snapshot) (st : Option SymRecord) :
    ((processSymbol levels now snap st).2 = none →
       (processSymbol levels now snap st).1.notified_level =
         st.bind (·.notified_level)) ∧
    (∀ a, (processSymbol levels now snap st).2 = some a →
       (processSymbol levels now snap st).1.notified_level = some a.level) ∧
    (∀ r0, st = some r0 → r0.peak_date ≠ snap.peak_date →
       (processSymbol levels now snap st).2 = none →
       (processSymbol levels now snap st).1.peak_date = snap.peak_date ∧
       (processSymbol levels now snap st).1.notified_level = r0.notified_level) := by
  rcases processSymbol_spec levels now snap st with ⟨heq, -⟩ | ⟨h, -, -, heq⟩ <;>
    rw [heq]
  · refine ⟨fun _ => rfl, fun a ha => absurd ha (by simp), ?_⟩
    intro r0 hst _ _
    rw [hst]
    exact ⟨rfl, rfl⟩
  · refine ⟨fun hc => absurd hc (by simp), ?_, ?_⟩
    · intro a ha
      simp only [Option.some.injEq] at ha
      rw [← ha]
      rfl
    · intro r0 _ _ hc
      exact absurd hc (by simp)

/-- C6 witness: stored peak "2024-01-10" with notified_level 2, new snapshot
peak "2024-03-01" with no level reached — no alert, the new peak date is
written, and the stale notified_level 2 is kept. -/
theorem C6_notified_changes_only_on_alert_witness :
    (processSymbol [-25, -50, -75] "t"
        { last_date := "d", last_close := 90, peak_date := "2024-03-01",
          peak_value := 100, drawdown := -10 }
        (some { updated_at := "t0", last_date := "d0", last_close := 50,
                peak_date := "2024-01-10", peak_value := 110, drawdown := -55,
                notified_level := some 2 })).1.peak_date = "2024-03-01" ∧
    (processSymbol [-25, -50, -75] "t"
        { last_date := "d", last_close := 90, peak_date := "2024-03-01",
          peak_value := 100, drawdown := -10 }
        (some { updated_at := "t0", last_date := "d0", last_close := 50,
                peak_date := "2024-01-10", peak_value := 110, drawdown := -55,
                notified_level := some 2 })).1.notified_level = some 2 :=
  (C6_notified_changes_only_on_alert [-25, -50, -75] "t"
      { last_date := "d", last_close := 90, peak_date := "2024-03-01",
        peak_value := 100, drawdown := -10 } _).2.2
    { updated_at := "t0", last_date := "d0", last_close := 50,
      peak_date := "2024-01-10", peak_value := 110, drawdown := -55,
      notified_level := some 2 } rfl (by decide) (by decide)

/-- C7: the mirror fields are always refreshed from the snapshot (and
updated_at from the run timestamp), whether or not an alert fired; when no
level is hit, or the hit level is at most the effective notified level, no
alert fires and notified_level is unchanged. -/
theorem C7_mirror_refresh_frame (levels : List ℚ) (now : String)
    (snap : Snapshot) (st : Option SymRecord) :
    ((processSymbol levels now snap st).1.last_date = snap.last_date ∧
     (processSymbol levels now snap st).1.last_close = snap.last_close ∧
     (processSymbol levels now snap st).1.peak_date = snap.peak_date ∧
     (processSymbol levels now snap st).1.peak_value = snap.peak_value ∧
     (processSymbol levels now snap st).1.drawdown = snap.drawdown ∧
     (processSymbol levels now snap st).1.updated_at = now) ∧
    (decide_level snap.drawdown levels = none →
       (processSymbol levels now snap st).2 = none ∧
       (processSymbol levels now snap st).1.notified_level =
         st.bind (·.notified_level)) ∧
    (∀ h, decide_level snap.drawdown levels = some h →
       h ≤ effectiveNotified st snap.peak_date →
       (processSymbol levels now snap st).2 = none ∧
       (processSymbol levels now snap st).1.notified_level =
         st.bind (·.notified_level)) := by
  refine ⟨?_, ?_, ?_⟩
  · rcases processSymbol_spec levels now snap st with ⟨heq, -⟩ | ⟨h, -, -, heq⟩ <;>
      rw [heq] <;> exact ⟨rfl, rfl, rfl, rfl, rfl, rfl⟩
  · intro hnone
    have heq := processSymbol_noalert_of levels now snap st
      (fun h hh => absurd hh (by simp [hnone]))
    rw [heq]
    exact ⟨rfl, rfl⟩
  · intro h hh hle
    have heq := processSymbol_noalert_of levels now snap st
      (by
        intro h' hh'
        rw [hh] at hh'
        have : h' = h := by injection hh' with he; omega
        omega)
    rw [heq]
    exact ⟨rfl, rfl⟩

/-- C7 witness: stored notified_level 2 under the same peak date and a
snapshot hitting only level 1 — the mirror fields are refreshed, no alert
fires and notified_level stays 2. -/
theorem C7_mirror_refresh_frame_witness :
    ((processSymbol [-30, -55, -75] "t2"
        { last_date := "d9", last_close := 60, peak_date := "p",
          peak_value := 100, drawdown := -40 }
        (some { updated_at := "t0", last_date := "d0", last_close := 40,
                peak_date := "p", peak_value := 100, drawdown := -60,
                notified_level := some 2 })).1.last_date = "d9" ∧
     (processSymbol [-30, -55, -75] "t2"
        { last_date := "d9", last_close := 60, peak_date := "p",
          peak_value := 100, drawdown := -40 }
        (some { updated_at := "t0", last_date := "d0", last_close := 40,
                peak_date := "p", peak_value := 100, drawdown := -60,
                notified_level := some 2 })).1.updated_at = "t2") ∧
    ((processSymbol [-30, -55, -75] "t2"
        { last_date := "d9", last_close := 60, peak_date := "p",
          peak_value := 100, drawdown := -40 }
        (some { updated_at := "t0", last_date := "d0", last_close := 40,
                peak_date := "p", peak_value := 100, drawdown := -60,
                notified_level := some 2 })).2 = none ∧
     (processSymbol [-30, -55, -75] "t2"
        { last_date := "d9", last_close := 60, peak_date := "p",
          peak_value := 100, drawdown := -40 }
        (some { updated_at := "t0", last_date := "d0", last_close := 40,
                peak_date := "p", peak_value := 100, drawdown := -60,
                notified_level := some 2 })).1.notified_level = some 2) :=
  ⟨⟨(C7_mirror_refresh_frame [-30, -55, -75] "t2"
        { last_date := "d9", last_close := 60, peak_date := "p",
          peak_value := 100, drawdown := -40 }
        (some { updated_at := "t0", last_date := "d0", last_close := 40,
                peak_date := "p", peak_value := 100, drawdown := -60,
                notified_level := some 2 })).1.1,
    (C7_mirror_refresh_frame [-30, -55, -75] "t2"
        { last_date := "d9", last_close := 60, peak_date := "p",
          peak_value := 100, drawdown := -40 }
        (some { updated_at := "t0", last_date := "d0", last_close := 40,
                peak_date := "p", peak_value := 100, drawdown := -60,
                notified_level := some 2 })).1.2.2.2.2.2⟩,
    (C7_mirror_refresh_frame [-30, -55, -75] "t2"
        { last_date := "d9", last_close := 60, peak_date := "p",
          peak_value := 100, drawdown := -40 }
        (some { updated_at := "t0", last_date := "d0", last_close := 40,
                peak_date := "p", peak_value := 100, drawdown := -60,
                notified_level := some 2 })).2.2 1 (by decide) (by decide)⟩

/-- C8: a fetch or issue-creation failure at any symbol aborts the run — the
result is the failing symbol's error no matter what symbols follow, and the
persisted application state is the previous one, untouched. -/
theorem C8_failure_aborts_run (fetch : String → Except String Snapshot)
    (notify : String → Nat → Snapshot → ℚ → Except String Unit) (now : String)
    (pre : List (String × List ℚ)) (sym : String) (levels : List ℚ)
    (rest : List (String × List ℚ)) (app app1 : AppState) (e : String)
    (hpre : runSymbols fetch notify now pre app = .ok app1)
    (hfail : stepSymbol fetch notify now sym levels app1 = .error e) :
    runSymbols fetch notify now (pre ++ (sym, levels) :: rest) app = .error e ∧
    mainPersisted fetch notify now (pre ++ (sym, levels) :: rest) app = app := by
  have hrun : runSymbols fetch notify now (pre ++ (sym, levels) :: rest) app =
      .error e := by
    rw [runSymbols_append, hpre]
    simp only [runSymbols]
    rw [hfail]
  refine ⟨hrun, ?_⟩
  rw [mainPersisted, hrun]

/-- C8 witness: a rules list whose second symbol's fetch fails — the whole run
errors and the persisted state is the original one. -/
theorem C8_failure_aborts_run_witness :
    runSymbols
        (fun s => if s = "TQQQ" then
           .ok { last_date := "d", last_close := 60, peak_date := "p",
                 peak_value := 100, drawdown := -40 }
         else .error "boom")
        (fun _ _ _ _ => .ok ()) "t"
        ([("TQQQ", [-30, -55, -75])] ++ ("SOXL", [-45, -65, -85]) ::
          [("TECL", [-25, -50, -75])])
        { version := 1, symbols := fun _ => none } = .error "boom" ∧
    mainPersisted
        (fun s => if s = "TQQQ" then
           .ok { last_date := "d", last_close := 60, peak_date := "p",
                 peak_value := 100, drawdown := -40 }
         else .error "boom")
        (fun _ _ _ _ => .ok ()) "t"
        ([("TQQQ", [-30, -55, -75])] ++ ("SOXL", [-45, -65, -85]) ::
          [("TECL", [-25, -50, -75])])
        { version := 1, symbols := fun _ => none } =
      { version := 1, symbols := fun _ => none } :=
  C8_failure_aborts_run
    (fun s => if s = "TQQQ" then
       .ok { last_date := "d", last_close := 60, peak_date := "p",
             peak_value := 100, drawdown := -40 }
     else .error "boom")
    (fun _ _ _ _ => .ok ()) "t"
    [("TQQQ", [-30, -55, -75])] "SOXL" [-45, -65, -85]
    [("TECL", [-25, -50, -75])] _ _ "boom" (by rfl) (by rfl)

/-- C9: fetch_snapshot errs on a missing response, an empty frame, a missing
close column, and on fewer than 60 valid observations (in particular 59);
with exactly 60 valid observations it produces a Snapshot, and the trailing
window then holds exactly those 60 observations. -/
theorem C9_fetch_validation (d : DF) :
    (∃ e, fetch_snapshot none = Except.error e) ∧
    (d.empty = true → ∃ e, fetch_snapshot (some d) = Except.error e) ∧
    (d.empty = false → d.hasClose = false →
       ∃ e, fetch_snapshot (some d) = Except.error e) ∧
    (d.empty = false → d.hasClose = true → (dropna d.close).length < 60 →
       ∃ e, fetch_snapshot (some d) = Except.error e) ∧
    (d.empty = false → d.hasClose = true → (dropna d.close).length = 60 →
       ∃ s, fetch_snapshot (some d) = Except.ok s ∧
         (tailWindow (dropna d.close)).length = 60) := by
  refine ⟨⟨"Failed to fetch data", rfl⟩, ?_, ?_, ?_, ?_⟩
  · intro h1
    exact ⟨"Failed to fetch data", by rw [fetch_snapshot_some, if_pos h1]⟩
  · intro h1 h2
    refine ⟨"Close column not found", ?_⟩
    rw [fetch_snapshot_some, if_neg (by simp [h1]), if_pos h2]
  · intro h1 h2 h3
    refine ⟨"Not enough data", ?_⟩
    rw [fetch_snapshot_some, if_neg (by simp [h1]), if_neg (by simp [h2]),
      if_pos h3]
  · intro h1 h2 h3
    have hlen : (tailWindow (dropna d.close)).length = 60 := by
      rw [tailWindow, List.length_drop, h3]
      decide
    have hne : tailWindow (dropna d.close) ≠ [] := by
      intro hc
      rw [hc] at hlen
      simp at hlen
    obtain ⟨pk, hpk⟩ : ∃ pk, peakOf (tailWindow (dropna d.close)) = some pk := by
      cases htl : tailWindow (dropna d.close) with
      | nil => exact absurd htl hne
      | cons x rest => exact Option.isSome_iff_exists.mp (peakOf_cons_isSome x rest)
    obtain ⟨pd, pv⟩ := pk
    obtain ⟨lt, hlast⟩ : ∃ lt, (tailWindow (dropna d.close)).getLast? = some lt :=
      Option.isSome_iff_exists.mp (by rw [List.getLast?_isSome]; exact hne)
    obtain ⟨ld, lv⟩ := lt
    refine ⟨{ last_date := ld, last_close := lv, peak_date := pd,
              peak_value := pv, drawdown := lv / pv - 1 }, ?_, hlen⟩
    rw [fetch_snapshot_some, if_neg (by simp [h1]), if_neg (by simp [h2]),
      if_neg (by omega), hpk, hlast]

/-- C9 witness: 59 valid observations err, 60 valid observations produce
a Snapshot over a 60-observation window. -/
theorem C9_fetch_validation_witness :
    (∃ e, fetch_snapshot
        (some { empty := false, hasClose := true,
                close := List.replicate 59 ("d", some (1:ℚ)) }) =
      Except.error e) ∧
    (∃ s, fetch_snapshot
        (some { empty := false, hasClose := true,
                close := List.replicate 60 ("d", some (1:ℚ)) }) =
        Except.ok s ∧
      (tailWindow (dropna (List.replicate 60 ("d", some (1:ℚ))))).length = 60) :=
  ⟨(C9_fetch_validation
      { empty := false, hasClose := true,
        close := List.replicate 59 ("d", some (1:ℚ)) }).2.2.2.1
      rfl rfl (by decide),
   (C9_fetch_validation
      { empty := false, hasClose := true,
        close := List.replicate 60 ("d", some (1:ℚ)) }).2.2.2.2
      rfl rfl (by decide)⟩

/-- C10: whenever fetch_snapshot succeeds, the snapshot's peak is an entry of
the trailing window whose value bounds the whole window, and every strictly
earlier window entry is strictly below it — so on ties the earliest date
attaining the maximum is chosen, and peak_value is that maximum. -/
theorem C10_peak_first_max (df : Option DF) (s : Snapshot)
    (hok : fetch_snapshot df = Except.ok s) :
    ∃ d, df = some d ∧
      ∃ i, ∃ hi : i < (tailWindow (dropna d.close)).length,
        (tailWindow (dropna d.close))[i] = (s.peak_date, s.peak_value) ∧
        (∀ j, ∀ hj : j < (tailWindow (dropna d.close)).length,
           ((tailWindow (dropna d.close))[j]).2 ≤ s.peak_value) ∧
        (∀ j, ∀ hj : j < (tailWindow (dropna d.close)).length, j < i →
           ((tailWindow (dropna d.close))[j]).2 < s.peak_value) := by
  cases df with
  | none => exact absurd hok (by simp [fetch_snapshot])
  | some d =>
    obtain ⟨-, -, -, hpk, -⟩ := fetch_snapshot_ok_inv hok
    exact ⟨d, rfl, peakOf_spec _ _ _ hpk⟩

/-- C10 witness: a window whose maximum close 2 occurs on the first and the
last day — the snapshot's peak is the first (earliest) occurrence. -/
theorem C10_peak_first_max_witness :
    ∃ d,
      (some { empty := false, hasClose := true,
              close := ("dA", some (2:ℚ)) ::
                (List.replicate 58 ("dx", some (1:ℚ)) ++ [("dB", some (2:ℚ))]) } :
        Option DF) = some d ∧
      ∃ i, ∃ hi : i < (tailWindow (dropna d.close)).length,
        (tailWindow (dropna d.close))[i] = ("dA", (2:ℚ)) ∧
        (∀ j, ∀ hj : j < (tailWindow (dropna d.close)).length,
           ((tailWindow (dropna d.close))[j]).2 ≤ (2:ℚ)) ∧
        (∀ j, ∀ hj : j < (tailWindow (dropna d.close)).length, j < i →
           ((tailWindow (dropna d.close))[j]).2 < (2:ℚ)) :=
  C10_peak_first_max
    (some { empty := false, hasClose := true,
            close := ("dA", some (2:ℚ)) ::
              (List.replicate 58 ("dx", some (1:ℚ)) ++ [("dB", some (2:ℚ))]) })
    { last_date := "dB", last_close := 2, peak_date := "dA", peak_value := 2,
      drawdown := 2 / 2 - 1 } (by rfl)

end Drawdown
